import Mathlib

/-!
Shallow embedding of the flask_lac repository (files `flask_lac/user.py` and
`build/lib/flask_lac/__init__.py`).

Conventions of the embedding:
* JSON values are the inductive `Json`; `Json.get` is Python `dict.get`
  (returning `none` when the key is absent or the value is not an object).
* The Flask session is the structure `Session`; a field of type
  `Option (Option String)` distinguishes "key absent" (outer `none`) from
  "key present with value `None`" (inner `none`), matching Python.
* `datetime` values are `Int` timestamps; `datetime.strptime` with the fixed
  format string is an external C-library routine, so it is passed as an
  explicit `parse : String → Option Int` argument (`none` models the
  `ValueError` that propagates out of the constructor).
* HTTP calls (`requests.post`) are modelled by an `HttpResult` argument:
  either a transport error (`requests.RequestException`) or a concrete
  `Response` with a status code and JSON body.
* Fallible constructors return an outcome inductive whose constructors
  record the normal result, a Flask `abort(401)`, a raised exception, or a
  propagated parse error, together with the session as left behind.
-/

namespace FlaskLac

inductive Json where
  | null : Json
  | str : String → Json
  | num : Int → Json
  | obj : List (String × Json) → Json

/-- Key lookup in the field list of a JSON object (Python dict lookup). -/
def findField : List (String × Json) → String → Option Json
  | [], _ => none
  | (k, v) :: rest, key => if k = key then some v else findField rest key

/-- Python `dict.get(key)`: `none` when the key is absent or the value is
not an object. -/
def Json.get : Json → String → Option Json
  | .obj fields, key => findField fields key
  | _, _ => none

/-- Python `key in dict`. -/
def Json.member (j : Json) (key : String) : Bool :=
  (j.get key).isSome

/-- Python `value == "literal"` for a JSON value against a string: true only
when the value is that exact string. -/
def Json.isStr : Json → String → Bool
  | .str t, s => t = s
  | _, _ => false

/-- Python `int(value)`: an integer stays itself, a numeric string is
parsed, anything else raises `ValueError` (modelled as `none`). -/
def Json.toInt : Json → Option Int
  | .num n => some n
  | .str s => s.toInt?
  | _ => none

/-- One HTTP response from the auth service: `status_code` and JSON body. -/
structure Response where
  status_code : Int
  body : Json

/-- `requests.post` either raises a transport error or yields a response. -/
inductive HttpResult where
  | transportError : HttpResult
  | response : Response → HttpResult

/-- `response.raise_for_status()` raises `requests.HTTPError` exactly for
4xx and 5xx status codes. -/
def raiseForStatus (r : Response) : Bool :=
  decide (400 ≤ r.status_code) && decide (r.status_code < 600)

/-- The Flask session, restricted to the keys this package touches.
`token`: outer `none` = key absent, inner `none` = value `None`. -/
structure Session where
  token : Option (Option String) := none
  expiry : Option String := none
  logged_in : Option Bool := none
  nextUrl : Option String := none
  modified : Option Bool := none
deriving DecidableEq

/-- The in-memory fields of a `User` instance (`_token`, `_expiry`,
`_info`, `_authenticated`). `expiry` is the parsed timestamp. -/
structure UserState where
  token : Option String
  expiry : Option Int
  info : Option Json
  authenticated : Bool

/-- Value of the `AuthServiceResponse.status_machine` property: Python
returns a Flask redirect Response object when the body field equals
`"TOKEN_EXPIRED"`, and otherwise the raw field value (default `"ERROR"`). -/
inductive SMValue where
  | redirectLogin : SMValue
  | val : Json → SMValue

/-- The `status_machine` property (user.py lines 87-100). -/
def status_machine (j : Json) : SMValue :=
  if (match j.get "status_machine" with
      | some v => v.isStr "TOKEN_EXPIRED"
      | none => false) then
    SMValue.redirectLogin
  else
    SMValue.val ((j.get "status_machine").getD (Json.str "ERROR"))

/-- Python `self.status_machine == "<s>"`: a redirect Response object never
equals a string. -/
def smEqStr : SMValue → String → Bool
  | .redirectLogin, _ => false
  | .val v, s => v.isStr s

/-- Outcome of `AuthServiceResponse.__init__`: constructed normally,
`abort(401)` raised (session token popped, `modified` set), or a plain
`Exception` raised (`hard_fail`). -/
inductive ASRInit where
  | ok : Session → ASRInit
  | abort401 : Session → ASRInit
  | raised : ASRInit

/-- `AuthServiceResponse.__init__` (user.py lines 29-60).  The
`TOKEN_EXPIRED` comparison on line 43 is always false (the property yields
a redirect object then, never the string), and the redirect built on
line 44 is discarded, so neither has an effect to model. -/
def AuthServiceResponse.init (sess : Session) (resp : Response)
    (hard_fail : Bool) : ASRInit :=
  if smEqStr (status_machine resp.body) "INVALID" then
    ASRInit.abort401 { sess with token := none, modified := some true }
  else if resp.status_code ≠ 200 ∧ smEqStr (status_machine resp.body) "OK" = false then
    if hard_fail then ASRInit.raised else ASRInit.ok sess
  else
    ASRInit.ok sess

/-- Extraction of the `user_info` key (user.py lines 313-316):
`self._info = auth_response.json["user_info"]` guarded by membership. -/
def infoExtract (j : Json) : Option Json :=
  if j.member "user_info" then j.get "user_info" else none

/-- Outcome of `User._get_info`: the fetched info (or `None`) with the
session, or a propagated `abort(401)` / raised exception (an
`HTTPException` or plain `Exception` is not a `requests.RequestException`,
so the `except` clause does not catch it). -/
inductive GetInfoOutcome where
  | done : Option Json → Session → GetInfoOutcome
  | abort401 : Session → GetInfoOutcome
  | raised : GetInfoOutcome

/-- `User._get_info` (user.py lines 303-323): POST `/user_info`, then
`raise_for_status`, then validate through `AuthServiceResponse` with
`hard_fail=False`; a `RequestException` is caught and sets `_info = None`. -/
def get_info (sess : Session) (http : HttpResult) : GetInfoOutcome :=
  match http with
  | .transportError => .done none sess
  | .response r =>
    if raiseForStatus r then
      .done none sess
    else
      match AuthServiceResponse.init sess r false with
      | .abort401 s => .abort401 s
      | .raised => .raised
      | .ok s => .done (infoExtract r.body) s

/-- Outcome of `User.__init__`: the constructed instance with the session
left behind and a flag recording whether the `/user_info` fetch was
attempted; or a propagated `strptime` `ValueError`; or a propagated
`abort(401)`; or a propagated exception. -/
inductive InitOutcome where
  | ok : UserState → Session → Bool → InitOutcome
  | parseError : Session → InitOutcome
  | abort401 : Session → InitOutcome
  | raised : Session → InitOutcome

/-- Tail of `User.__init__` for `_go_on = True` (user.py lines 284-287):
set `_authenticated = True`, fetch info, start the verification thread. -/
def finishAuth (tok : Option String) (exp : Option Int) (sess : Session)
    (http : HttpResult) : InitOutcome :=
  match get_info sess http with
  | .done info s =>
    .ok { token := tok, expiry := exp, info := info, authenticated := true } s true
  | .abort401 s => .abort401 s
  | .raised => .raised sess

/-- `User.__init__` (user.py lines 249-290).  `_go_on` becomes true when a
`token` key is present, is reset by the expiry branch when an `expiry` key
is present (false if the parsed expiry is `< now`, true otherwise), and
when it ends up true the constructor authenticates and fetches the
profile.  The redirects built on lines 268 and 280 are discarded. -/
def User.init (sess : Session) (parse : String → Option Int) (now : Int)
    (http : HttpResult) : InitOutcome :=
  let tok : Option String := match sess.token with
    | some v => v
    | none => none
  match sess.expiry with
  | some e =>
    match parse e with
    | none => .parseError sess
    | some exp =>
      if exp < now then
        .ok { token := tok, expiry := some exp, info := none, authenticated := false }
          { sess with logged_in := some false } false
      else
        finishAuth tok (some exp) sess http
  | none =>
    if sess.token.isSome then
      finishAuth tok none sess http
    else
      .ok { token := tok, expiry := none, info := none, authenticated := false }
        sess false

/-- `User.is_authenticated` (user.py lines 505-525), with
`has_request_context()` as an explicit argument; returns the boolean and
the session left behind. -/
def User.is_authenticated (u : UserState) (sess : Session) (hasCtx : Bool) :
    Bool × Session :=
  if hasCtx then
    let s1 := if sess.logged_in = none then
        { sess with logged_in := some false, modified := some true }
      else sess
    if s1.logged_in = some false then (false, s1)
    else (u.authenticated, s1)
  else
    (u.authenticated, sess)

/-- `user.role` (user.py line 440): `self._info.get("role") if self._info
else None`. -/
def userRole (u : UserState) : Option Json :=
  match u.info with
  | some j => j.get "role"
  | none => none

/-- Result of the `role_required` wrapper: handler invoked, redirect to
login carrying the request URL, redirect to the configured fallback,
`abort(403)` reporting required and actual role, or a raised `ValueError`
from `int(...)`. -/
inductive GuardResult where
  | callHandler : GuardResult
  | redirectLogin : String → GuardResult
  | redirectFallback : String → GuardResult
  | forbidden : Int → Option Json → GuardResult
  | raised : GuardResult

/-- The body of the `role_required(min_role, redirect_to)` wrapper
(user.py lines 214-236), applied to the freshly constructed user `u` and
the current session.  The `redirect` after `abort(403)` on line 234 is
dead code. -/
def role_required (min_role : Int) (redirect_to : Option String)
    (u : UserState) (sess : Session) (requestUrl : String) :
    GuardResult × Session :=
  let a := User.is_authenticated u sess true
  if a.1 = false then
    (.redirectLogin requestUrl, a.2)
  else
    let deny : GuardResult × Session :=
      match redirect_to with
      | some route => (.redirectFallback route, a.2)
      | none => (.forbidden min_role (userRole u), a.2)
    match userRole u with
    | some r =>
      match Json.toInt r with
      | none => (.raised, a.2)
      | some n => if min_role ≤ n then (.callHandler, a.2) else deny
    | none => deny

/-- The session after `session.clear()` followed by
`session["token"] = None`, `session["logged_in"] = False`,
`session["modified"] = True` in the logout route. -/
def clearedSession : Session :=
  { token := some none, expiry := none, logged_in := some false,
    nextUrl := none, modified := some true }

/-- The user state after the logout route resets `current_user`. -/
def resetUser : UserState :=
  { token := none, expiry := none, info := none, authenticated := false }

/-- Python `if token:` on the value of `session.get("token")`. -/
def tokenTruthy : Option String → Bool
  | some t => t ≠ ""
  | none => false

/-- The `/logout` route (build/lib/flask_lac/__init__.py lines 152-194).
The whole body, including `session.clear()` and the `current_user` reset,
sits inside the `try` block after `raise_for_status()`, so a
`RequestException` jumps to the `except` clause (which only prints) before
anything is cleared. -/
def logout (sess : Session) (u : UserState) (http : HttpResult) :
    Session × UserState :=
  let tok : Option String := match sess.token with
    | some v => v
    | none => none
  if tokenTruthy tok then
    match http with
    | .transportError => (sess, u)
    | .response r =>
      if raiseForStatus r then (sess, u)
      else (clearedSession, resetUser)
  else
    (clearedSession, resetUser)

/-- Claim C1 (code bug): the claim says a session without a `token` key
always yields `authenticated = false` and `profile = None`, regardless of
any `expiry` value.  The code instead sets `_go_on = True` in the
expiry-not-expired branch, so a session with no token but a future expiry
authenticates (with `_token = None`) and attempts the profile fetch. -/
theorem c1_no_token_future_expiry_authenticates :
    User.init
      { token := none, expiry := some "Tue, 01 Jan 2030 00:00:00 GMT",
        logged_in := none, nextUrl := none, modified := none }
      (fun s => if s = "Tue, 01 Jan 2030 00:00:00 GMT" then some 1893456000 else none)
      1700000000 HttpResult.transportError
    = InitOutcome.ok
        { token := none, expiry := some 1893456000, info := none, authenticated := true }
        { token := none, expiry := some "Tue, 01 Jan 2030 00:00:00 GMT",
          logged_in := none, nextUrl := none, modified := none }
        true := by
  rfl

/-- Claim C2 (code bug): the claimed invariant is that `authenticated =
true` implies a non-empty stored token and a future expiry.  The same slip
as C1 violates it: a session with no token but a future expiry leaves the
constructor with `authenticated = true` while `_token` is `None`. -/
theorem c2_authenticated_with_none_token :
    (User.init
      { token := none, expiry := some "Wed, 02 Jan 2030 00:00:00 GMT",
        logged_in := none, nextUrl := none, modified := none }
      (fun s => if s = "Wed, 02 Jan 2030 00:00:00 GMT" then some 1893542400 else none)
      1700000000 HttpResult.transportError
    = InitOutcome.ok
        { token := none, expiry := some 1893542400, info := none, authenticated := true }
        { token := none, expiry := some "Wed, 02 Jan 2030 00:00:00 GMT",
          logged_in := none, nextUrl := none, modified := none }
        true)
    ∧ (UserState.token
        { token := none, expiry := some 1893542400, info := none, authenticated := true }
        = none)
    ∧ (UserState.authenticated
        { token := none, expiry := some 1893542400, info := none, authenticated := true }
        = true) := by
  exact ⟨rfl, rfl, rfl⟩

/-- Claim C8 (code bug): the claim (and the property docstring, which
promises a `str`) says a body with `status_machine = "TOKEN_EXPIRED"`
yields the `TOKEN_EXPIRED` tag; the property instead returns a Flask
redirect Response object, which is a different value from the tag. -/
theorem c8_token_expired_yields_redirect_object :
    (status_machine (Json.obj [("status_machine", Json.str "TOKEN_EXPIRED")])
      = SMValue.redirectLogin)
    ∧ SMValue.redirectLogin ≠ SMValue.val (Json.str "TOKEN_EXPIRED")
    ∧ (status_machine (Json.obj [("status_machine", Json.str "OK")])
      = SMValue.val (Json.str "OK"))
    ∧ (status_machine (Json.obj [])
      = SMValue.val (Json.str "ERROR")) := by
  refine ⟨rfl, ?_, rfl, rfl⟩
  intro h
  exact SMValue.noConfusion h

/-- Claim C9 (code bug): the claim says the `/logout` route clears the
session and resets the user fields whether or not the external logout call
succeeds.  In the code the clearing sits inside the `try` block after
`raise_for_status()`, so on a transport failure nothing is cleared: the
session keeps its token and `logged_in = True`. -/
theorem c9_logout_transport_failure_leaves_session :
    (logout
      { token := some (some "abc"), expiry := some "Tue, 01 Jan 2030 00:00:00 GMT",
        logged_in := some true, nextUrl := none, modified := none }
      { token := some "abc", expiry := some 1893456000, info := none,
        authenticated := true }
      HttpResult.transportError
    = ({ token := some (some "abc"), expiry := some "Tue, 01 Jan 2030 00:00:00 GMT",
         logged_in := some true, nextUrl := none, modified := none },
       { token := some "abc", expiry := some 1893456000, info := none,
         authenticated := true }))
    ∧ Session.token
        { token := some (some "abc"), expiry := some "Tue, 01 Jan 2030 00:00:00 GMT",
          logged_in := some true, nextUrl := none, modified := none } ≠
      Session.token clearedSession := by
  refine ⟨rfl, ?_⟩
  intro h
  simp [clearedSession] at h

/-- Claim C3 (confirmed): with `token` present and a parseable `expiry`
strictly earlier than now, the constructor yields `authenticated = false`,
`profile = None` and writes `logged_in = False` into the session; the
comparison is strict `<`, so an expiry exactly equal to now is not
expired (second conjunct: the constructor authenticates then). -/
theorem c3_expired_session_not_authenticated
    (sess : Session) (parse : String → Option Int) (now exp : Int)
    (e : String) (tok : Option String) (http : HttpResult)
    (htok : sess.token = some tok) (hexp : sess.expiry = some e)
    (hp : parse e = some exp) :
    (exp < now →
      User.init sess parse now http
      = InitOutcome.ok
          { token := tok, expiry := some exp, info := none, authenticated := false }
          { sess with logged_in := some false } false)
    ∧ (exp = now →
      User.init sess parse now HttpResult.transportError
      = InitOutcome.ok
          { token := tok, expiry := some exp, info := none, authenticated := true }
          sess true) := by
  constructor
  · intro hlt
    simp [User.init, htok, hexp, hp, hlt]
  · intro heq
    subst heq
    simp [User.init, htok, hexp, hp, finishAuth, get_info]

/-- Witness for C3 at a concrete session, parse function and clock. -/
theorem c3_witness :
    (User.init { token := some (some "t"), expiry := some "e" }
      (fun s => if s = "e" then some 5 else none) 10 HttpResult.transportError
     = InitOutcome.ok
         { token := some "t", expiry := some 5, info := none, authenticated := false }
         { token := some (some "t"), expiry := some "e", logged_in := some false }
         false)
    ∧ (User.init { token := some (some "t"), expiry := some "e" }
      (fun s => if s = "e" then some 5 else none) 5 HttpResult.transportError
     = InitOutcome.ok
         { token := some "t", expiry := some 5, info := none, authenticated := true }
         { token := some (some "t"), expiry := some "e" } true) :=
  ⟨(c3_expired_session_not_authenticated _ _ 10 5 "e" (some "t") _ rfl rfl rfl).1
      (by decide),
   (c3_expired_session_not_authenticated _ _ 5 5 "e" (some "t")
      HttpResult.transportError rfl rfl rfl).2 rfl⟩

/-- Claim C4 (confirmed): with `token` present and a parseable future
`expiry`, the constructor attempts the `/user_info` fetch (final `true`
flag); on a transport error it completes with `profile = None` while
`authenticated` stays true. -/
theorem c4_transport_failure_keeps_authenticated
    (sess : Session) (parse : String → Option Int) (now exp : Int)
    (e : String) (tok : Option String)
    (htok : sess.token = some tok) (hexp : sess.expiry = some e)
    (hp : parse e = some exp) (hfut : now < exp) :
    User.init sess parse now HttpResult.transportError
    = InitOutcome.ok
        { token := tok, expiry := some exp, info := none, authenticated := true }
        sess true := by
  have hnlt : ¬ exp < now := by omega
  simp [User.init, htok, hexp, hp, hnlt, finishAuth, get_info]

/-- Witness for C4 at a concrete session, parse function and clock. -/
theorem c4_witness :
    User.init { token := some (some "t"), expiry := some "e" }
      (fun s => if s = "e" then some 9 else none) 4 HttpResult.transportError
    = InitOutcome.ok
        { token := some "t", expiry := some 9, info := none, authenticated := true }
        { token := some (some "t"), expiry := some "e" } true :=
  c4_transport_failure_keeps_authenticated _ _ 4 9 "e" (some "t") rfl rfl rfl
    (by decide)

/-- Claim C5 (confirmed): a response body with `status_machine =
"INVALID"` makes `AuthServiceResponse.__init__` pop the session `token`
key and `abort(401)` for both values of `hard_fail`; no object is returned
to the caller. -/
theorem c5_invalid_status_aborts
    (sess : Session) (resp : Response) (hard_fail : Bool)
    (h : resp.body.get "status_machine" = some (Json.str "INVALID")) :
    AuthServiceResponse.init sess resp hard_fail
    = ASRInit.abort401 { sess with token := none, modified := some true } := by
  simp [AuthServiceResponse.init, status_machine, h, smEqStr, Json.isStr]

/-- Witness for C5 at a concrete session and response, both `hard_fail`
values. -/
theorem c5_witness :
    (AuthServiceResponse.init { token := some (some "t"), logged_in := some true }
      ⟨200, Json.obj [("status_machine", Json.str "INVALID")]⟩ false
    = ASRInit.abort401 { token := none, logged_in := some true, modified := some true })
    ∧ (AuthServiceResponse.init { token := some (some "t"), logged_in := some true }
      ⟨200, Json.obj [("status_machine", Json.str "INVALID")]⟩ true
    = ASRInit.abort401 { token := none, logged_in := some true, modified := some true }) :=
  ⟨c5_invalid_status_aborts _ _ false rfl, c5_invalid_status_aborts _ _ true rfl⟩

/-- Claim C6 (confirmed): a response with `status_code ≠ 200` whose
`status_machine` equals neither `"OK"` nor `"INVALID"` raises under
`hard_fail = True`, completes construction under `hard_fail = False`, and
`user_info` extraction yields `None` when the body has no `user_info`
key. -/
theorem c6_non_ok_response_hard_fail_split
    (sess : Session) (resp : Response)
    (hcode : resp.status_code ≠ 200)
    (hok : smEqStr (status_machine resp.body) "OK" = false)
    (hinv : smEqStr (status_machine resp.body) "INVALID" = false) :
    (AuthServiceResponse.init sess resp true = ASRInit.raised)
    ∧ (AuthServiceResponse.init sess resp false = ASRInit.ok sess)
    ∧ (resp.body.member "user_info" = false → infoExtract resp.body = none) := by
  refine ⟨?_, ?_, ?_⟩
  · simp [AuthServiceResponse.init, hinv, hok, hcode]
  · simp [AuthServiceResponse.init, hinv, hok, hcode]
  · intro hm
    simp [infoExtract, hm]

/-- Witness for C6 at a concrete 500 response with `status_machine =
"ERROR"`. -/
theorem c6_witness :
    (AuthServiceResponse.init { logged_in := some true }
      ⟨500, Json.obj [("status_machine", Json.str "ERROR")]⟩ true
    = ASRInit.raised)
    ∧ (AuthServiceResponse.init { logged_in := some true }
      ⟨500, Json.obj [("status_machine", Json.str "ERROR")]⟩ false
    = ASRInit.ok { logged_in := some true })
    ∧ infoExtract (Json.obj [("status_machine", Json.str "ERROR")]) = none := by
  have h := c6_non_ok_response_hard_fail_split { logged_in := some true }
    ⟨500, Json.obj [("status_machine", Json.str "ERROR")]⟩
    (by decide) rfl rfl
  exact ⟨h.1, h.2.1, h.2.2 rfl⟩

/-- Claim C7 (confirmed): the `role_required(min_role)` wrapper invokes
the handler exactly when `is_authenticated` is true, the role is not
`None`, and `int(role) ≥ min_role`; with `min_role = 3` a role-2 user is
denied (forbidden reporting required and actual role, or fallback
redirect), role-3 and role-4 users are allowed, and an unauthenticated
user is redirected to login with the original URL. -/
theorem c7_role_required_guard :
    (∀ (min_role : Int) (redirect_to : Option String) (u : UserState)
       (sess : Session) (url : String),
      (role_required min_role redirect_to u sess url).1 = GuardResult.callHandler
      ↔ ((User.is_authenticated u sess true).1 = true
         ∧ ∃ r, userRole u = some r ∧ ∃ n, Json.toInt r = some n ∧ min_role ≤ n))
    ∧ ((role_required 3 none
         { token := some "t", expiry := some 9,
           info := some (Json.obj [("role", Json.num 2)]), authenticated := true }
         { logged_in := some true } "orig").1
       = GuardResult.forbidden 3 (some (Json.num 2)))
    ∧ ((role_required 3 (some "fallback")
         { token := some "t", expiry := some 9,
           info := some (Json.obj [("role", Json.num 2)]), authenticated := true }
         { logged_in := some true } "orig").1
       = GuardResult.redirectFallback "fallback")
    ∧ ((role_required 3 none
         { token := some "t", expiry := some 9,
           info := some (Json.obj [("role", Json.num 3)]), authenticated := true }
         { logged_in := some true } "orig").1
       = GuardResult.callHandler)
    ∧ ((role_required 3 none
         { token := some "t", expiry := some 9,
           info := some (Json.obj [("role", Json.num 4)]), authenticated := true }
         { logged_in := some true } "orig").1
       = GuardResult.callHandler)
    ∧ (role_required 3 none
         { token := some "t", expiry := some 9,
           info := some (Json.obj [("role", Json.num 4)]), authenticated := true }
         { logged_in := some false } "orig"
       = (GuardResult.redirectLogin "orig", { logged_in := some false })) := by
  refine ⟨?_, rfl, rfl, rfl, rfl, rfl⟩
  intro min_role rto u sess url
  unfold role_required
  cases hauth : (User.is_authenticated u sess true).1 with
  | false => simp [hauth]
  | true =>
    cases hrole : userRole u with
    | none => cases rto <;> simp [hauth, hrole]
    | some r =>
      cases hint : Json.toInt r with
      | none => cases rto <;> simp [hauth, hrole, hint]
      | some n =>
        by_cases hge : min_role ≤ n
        · simp [hauth, hrole, hint, hge]
        · cases rto <;> simp [hauth, hrole, hint, hge]

/-- Claim C10 (confirmed): inside a request context `is_authenticated`
returns false whenever the session `logged_in` field is false or absent,
writing `logged_in = False` (and `modified = True`) into the session when
it was absent; the internal flag is returned only when `logged_in` is true
or outside a request context. -/
theorem c10_is_authenticated_follows_session (u : UserState) (s : Session) :
    (User.is_authenticated u { s with logged_in := none } true
      = (false, { s with logged_in := some false, modified := some true }))
    ∧ (User.is_authenticated u { s with logged_in := some false } true
      = (false, { s with logged_in := some false }))
    ∧ (User.is_authenticated u { s with logged_in := some true } true
      = (u.authenticated, { s with logged_in := some true }))
    ∧ (User.is_authenticated u s false = (u.authenticated, s)) := by
  refine ⟨?_, ?_, ?_, ?_⟩ <;> simp [User.is_authenticated]

end FlaskLac
